import Mathlib

/-!
Shallow embedding of the image-upload pipeline of the Image-uploader
repository: the validation gate (`src/utils/helpers.js`,
`src/modules/services/imageService.js`), the transform engine
(`imageService.js`), the object-store adapter (`S3Service`) and the upload
orchestrator (`ImageUploadController`).  Machine integers of the JavaScript
source are modelled as `Int`/`Nat` (no overflow is relevant at the sizes
involved), fallible operations return `Except`, and the sharp pipeline is
represented symbolically as a list of queued operations, with the actual
codec (decode/encode) left abstract: every claim settled here depends only
on the repository's own control flow, never on sharp's pixel semantics.
-/

namespace ImageUploader

/-- A raw byte buffer.  Nothing in the verified control flow inspects the
bytes, only the length (`imageBuffer.length` in the source). -/
abbrev Buffer := List Nat

/-- JavaScript truthiness of an optional number: `undefined` and `0` are
falsy, every other number is truthy (used by `if (width || height)` and the
per-step guards of `applyTransformations`). -/
def jsTruthyNum (v : Option Int) : Bool :=
  match v with
  | none => false
  | some n => n ≠ 0

/-- JavaScript truthiness of an optional string: `undefined` and the empty
string are falsy (used by `if (!file?.mimetype)`). -/
def jsTruthyStr (v : Option String) : Bool :=
  match v with
  | none => false
  | some s => s ≠ ""

/-! ## Validation gate

`validateImageDimensions` from `src/utils/helpers.js` (lines 54-95) and
`ImageService.validateImage` from `src/modules/services/imageService.js`
(lines 343-377). -/

/-- One reason pushed into the `errors` array of `validateImageDimensions`,
or thrown by `validateImage`'s format/size checks.  Each constructor stands
for the corresponding message string of the source. -/
inductive VReason where
  /-- Message `Width must be at least (minWidth)px` -/
  | widthAtLeast (n : Int)
  /-- Message `Width must not exceed (maxWidth)px` -/
  | widthAtMost (n : Int)
  /-- Message `Height must be at least (minHeight)px` -/
  | heightAtLeast (n : Int)
  /-- Message `Height must not exceed (maxHeight)px` -/
  | heightAtMost (n : Int)
  /-- Message `Aspect ratio must be at least (aspectRatioMin)` -/
  | aspectAtLeast (q : ℚ)
  /-- Message `Aspect ratio must not exceed (aspectRatioMax)` -/
  | aspectAtMost (q : ℚ)
  /-- Message `Unsupported image format: (metadata.format)` -/
  | unsupportedImageFormat (f : String)
  /-- Message `Image exceeds maximum size of (maxSize) bytes` -/
  | exceedsMaxSize (n : Nat)
  deriving DecidableEq, Repr

/-- The `dimensions` argument of `validateImageDimensions`.  The
`aspectRatio` field is optional: `validateImage` passes the raw sharp
metadata object, which has no `aspectRatio` property, so there the field is
`none` (JavaScript `undefined`; `parseFloat(undefined)` is `NaN`). -/
structure Dimensions where
  width : Int
  height : Int
  aspectRatio : Option ℚ
  deriving DecidableEq, Repr

/-- The `constraints` argument.  `none` models an absent property; the
source then falls back to the destructuring defaults
(`minWidth = 0`, `maxWidth = Infinity`, `minHeight = 0`,
`maxHeight = Infinity`, `aspectRatioMin = 0`, `aspectRatioMax = Infinity`)
and, for `maxSize`, to `10 * 1024 * 1024` via `||`. -/
structure Constraints where
  minWidth : Option Int := none
  maxWidth : Option Int := none
  minHeight : Option Int := none
  maxHeight : Option Int := none
  aspectRatioMin : Option ℚ := none
  aspectRatioMax : Option ℚ := none
  maxSize : Option Nat := none
  deriving DecidableEq, Repr

/-- Return value of `validateImageDimensions`: `{ isValid, errors }`. -/
structure DimCheck where
  isValid : Bool
  errors : List VReason
  deriving DecidableEq, Repr

/-- Function `validateImageDimensions(dimensions, constraints)` of
`src/utils/helpers.js` lines 54-95.  The checks run in source order and
every failed check appends one message.  A `maxWidth`/`maxHeight`/
`aspectRatioMax` of `none` is `Infinity`, so its `>` comparison is false;
an absent `aspectRatio` is `undefined`, `parseFloat` gives `NaN`, and both
`NaN < aspectRatioMin` and `NaN > aspectRatioMax` are false, so neither
aspect message can be pushed. -/
def validateImageDimensions (d : Dimensions) (c : Constraints) : DimCheck :=
  let errs : List VReason :=
    (if d.width < c.minWidth.getD 0 then [.widthAtLeast (c.minWidth.getD 0)] else [])
    ++ (match c.maxWidth with
        | some m => if d.width > m then [.widthAtMost m] else []
        | none => [])
    ++ (if d.height < c.minHeight.getD 0 then [.heightAtLeast (c.minHeight.getD 0)] else [])
    ++ (match c.maxHeight with
        | some m => if d.height > m then [.heightAtMost m] else []
        | none => [])
    ++ (match d.aspectRatio with
        | none => []
        | some r =>
          (if r < c.aspectRatioMin.getD 0 then [.aspectAtLeast (c.aspectRatioMin.getD 0)] else [])
          ++ (match c.aspectRatioMax with
              | some m => if r > m then [.aspectAtMost m] else []
              | none => []))
  { isValid := errs.isEmpty, errors := errs }

/-- The fields of the sharp metadata object that `validateImage` reads.
(`sharp(imageBuffer).metadata()` for a decodable image.) -/
structure SharpMetadata where
  format : String
  width : Int
  height : Int
  deriving DecidableEq, Repr

/-- The raw sharp metadata viewed as the `dimensions` argument:
`validateImage` passes `metadata` itself, which carries `width` and
`height` but no `aspectRatio` property. -/
def sharpDims (md : SharpMetadata) : Dimensions :=
  { width := md.width, height := md.height, aspectRatio := none }

/-- The `supportedFormats` array of `validateImage` (line 351). -/
def supportedFormats : List String := ["jpeg", "png", "webp", "tiff", "avif", "gif"]

/-- Expression `constraints.maxSize || 10 * 1024 * 1024` (line 357): `undefined` and
`0` are falsy, so both fall back to the 10 MB default. -/
def effectiveMaxSize (c : Constraints) : Nat :=
  match c.maxSize with
  | none => 10 * 1024 * 1024
  | some n => if n = 0 then 10 * 1024 * 1024 else n

/-- Function `ImageService.validateImage(imageBuffer, constraints)` of
`src/modules/services/imageService.js` lines 343-377, for a decodable
buffer whose sharp metadata is `md` and whose `length` is `bufLen`.
`Except.error rs` models the function throwing an error whose message joins
the reasons `rs` with `'; '` (re-wrapped by the outer catch); `Except.ok ()`
models it returning `true`.  The three checks run in order and each throw
aborts the rest: a dimension failure hides the format check, and both hide
the size check. -/
def validateImage (md : SharpMetadata) (bufLen : Nat) (c : Constraints) :
    Except (List VReason) Unit :=
  if ¬ (validateImageDimensions (sharpDims md) c).isValid then
    .error (validateImageDimensions (sharpDims md) c).errors
  else if ¬ supportedFormats.contains md.format then
    .error [.unsupportedImageFormat md.format]
  else if bufLen > effectiveMaxSize c then
    .error [.exceedsMaxSize (effectiveMaxSize c)]
  else
    .ok ()

/-- Number of the four width/height bound constraints violated by `md`
under `c`, stated independently of `validateImageDimensions` (same
arithmetic conditions, written as counts). -/
def whViolationCount (md : SharpMetadata) (c : Constraints) : Nat :=
  (if md.width < c.minWidth.getD 0 then 1 else 0)
  + (match c.maxWidth with
     | some m => if md.width > m then 1 else 0
     | none => 0)
  + (if md.height < c.minHeight.getD 0 then 1 else 0)
  + (match c.maxHeight with
     | some m => if md.height > m then 1 else 0
     | none => 0)

/-- Spec-side definition, following the claim's words only (for comparison
with the code's behaviour): the number of constraints among {minWidth,
maxWidth, minHeight, maxHeight, aspectRatioMin, aspectRatioMax, maxSize,
supported-format allow-list} that the image violates simultaneously, with
the aspect ratio taken as the real ratio width/height. -/
def specViolationCount (md : SharpMetadata) (bufLen : Nat) (c : Constraints) : Nat :=
  let aspect : ℚ := (md.width : ℚ) / (md.height : ℚ)
  (if md.width < c.minWidth.getD 0 then 1 else 0)
  + (match c.maxWidth with
     | some m => if md.width > m then 1 else 0
     | none => 0)
  + (if md.height < c.minHeight.getD 0 then 1 else 0)
  + (match c.maxHeight with
     | some m => if md.height > m then 1 else 0
     | none => 0)
  + (if aspect < c.aspectRatioMin.getD 0 then 1 else 0)
  + (match c.aspectRatioMax with
     | some m => if aspect > m then 1 else 0
     | none => 0)
  + (match c.maxSize with
     | some m => if bufLen > m then 1 else 0
     | none => 0)
  + (if supportedFormats.contains md.format then 0 else 1)

/-- The reason list a `validateImage` failure carries (`[]` on success). -/
def vErrorList (r : Except (List VReason) Unit) : List VReason :=
  match r with
  | .error rs => rs
  | .ok () => []

/-! ## Transform engine

`ImageService.convertFormat` (lines 94-156), `ImageService.resizeImage`
(lines 49-91), `ImageService.createThumbnails` (lines 160-208) and
`ImageService.applyTransformations` (lines 211-275).  The sharp pipeline is
symbolic: a sharp instance accumulates queued operations and an output
format; `toBuffer` hands them to the abstract codec. -/

/-- Output encoders the `formatOptions` thunks select (sharp method called
last wins on the instance). -/
inductive OutFormat where
  | jpeg
  | png
  | webp
  | avif
  deriving DecidableEq, Repr

/-- Outcome of `ImageService.convertFormat`.  The source's outer catch
re-wraps every thrown error as `Failed to convert image format: ...`;
constructors record which underlying error was thrown. -/
inductive ConvertResult where
  /-- Pipeline reached `toBuffer`: the buffer is re-encoded in `fmt`;
  `quality` is the quality option handed to the encoder (`none` when the
  format method was called without options, as in the gif fallback's
  `sharpInstance.png()`). -/
  | ok (fmt : OutFormat) (quality : Option Nat)
  /-- Thrown `Unsupported format: (format)` (line 133). -/
  | unsupportedFormat (f : String)
  /-- TypeError `formatOptions[lowerFormat] is not a function`: the `tiff`
  entry of `formatOptions` (lines 121-124) is not wrapped in a thunk — it is
  `sharpInstance.tiff({...})`, evaluated while the object literal is built,
  so its value is the sharp instance, and calling it at line 136 throws. -/
  | typeErrorNotAFunction
  deriving DecidableEq, Repr

/-- ASCII lowercasing of one character, as
`String.prototype.toLowerCase()` acts on the ASCII format names the claims
concern. -/
def jsLowerChar (c : Char) : Char :=
  if 'A' ≤ c ∧ c ≤ 'Z' then Char.ofNat (c.toNat + 32) else c

/-- Expression `format.toLowerCase()` (line 98) for ASCII format names. -/
def jsToLowerCase (s : String) : String :=
  String.mk (s.data.map jsLowerChar)

/-- Function `ImageService.convertFormat(imageBuffer, format, options)` of
`imageService.js` lines 94-156.  Building the `formatOptions` object
eagerly applies `sharpInstance.tiff({quality: options.quality ?? 85, ...})`
to the instance on every call (the entry is not a thunk); each reachable
success branch then calls its own format method last, overriding the output
format, so this eager call has no observable effect on the result.  The
membership test `!formatOptions[lowerFormat]` sees a truthy value for all
six keys, including `tiff` (a sharp instance) — but dispatching on `tiff`
calls a non-function and throws a TypeError. -/
def convertFormat (buf : Buffer) (format : String) (quality : Option Nat) :
    ConvertResult :=
  let lowerFormat := jsToLowerCase format
  if lowerFormat = "jpeg" then .ok .jpeg (some (quality.getD 85))
  else if lowerFormat = "png" then .ok .png (some (quality.getD 90))
  else if lowerFormat = "webp" then .ok .webp (some (quality.getD 85))
  else if lowerFormat = "avif" then .ok .avif (some (quality.getD 85))
  else if lowerFormat = "tiff" then .typeErrorNotAFunction
  else if lowerFormat = "gif" then .ok .png none
  else .unsupportedFormat format

/-- One queued sharp operation.  Option arguments mirror what the source
passes; the codec interpreting the list is abstract. -/
inductive SharpOp where
  /-- Call `.resize(width, height, { fit, position, background,
  withoutEnlargement, kernel })` (resizeImage line 64). -/
  | resize (width height : Option Int) (fit : String) (position : String)
      (withoutEnlargement : Bool) (kernel : String)
  /-- Call `.rotate(angle, { background })` -/
  | rotate (angle : Int)
  | flip
  | flop
  /-- Call `.sharpen(sigma, flat, jagged)` -/
  | sharpen (sigma flat jagged : Int)
  /-- Call `.blur(sigma)` -/
  | blur (sigma : Int)
  | modulate
  | grayscale
  | negate
  /-- Call `.extract({ left, top, width, height })` -/
  | extract (left top width height : Int)
  | tint
  deriving DecidableEq, Repr

/-- Options object of `ImageService.resizeImage` with the destructuring
defaults of lines 51-59 (`background` is carried by the queued call and
never inspected here, so it is omitted from the record). -/
structure ResizeOptions where
  width : Option Int := none
  height : Option Int := none
  fit : String := "cover"
  position : String := "center"
  withoutEnlargement : Bool := true
  kernel : String := "lanczos3"
  deriving DecidableEq, Repr

/-- Function `ImageService.resizeImage(imageBuffer, options)` of
`imageService.js` lines 49-91, as the list of operations queued before
`toBuffer`: a single `resize` call iff `width || height` is truthy (a
width or height equal to `0` is falsy in JavaScript).  Note the function
always calls `toBuffer` — even with no resize operation the buffer goes
through a decode / re-encode round trip of the abstract codec; it is not
returned as-is. -/
def resizeImage (o : ResizeOptions) : List SharpOp :=
  if jsTruthyNum o.width || jsTruthyNum o.height then
    [.resize o.width o.height o.fit o.position o.withoutEnlargement o.kernel]
  else
    []

/-- One entry of the `sizes` array of `createThumbnails` (or of the
`defaultSizes` list). -/
structure SizeSpec where
  name : String
  width : Option Int := none
  height : Option Int := none
  fit : Option String := none
  withoutEnlargement : Option Bool := none
  deriving DecidableEq, Repr

/-- The `defaultSizes` array of `createThumbnails` (lines 162-166). -/
def defaultSizes : List SizeSpec :=
  [ { name := "small", width := some 150, height := some 150 },
    { name := "medium", width := some 300, height := some 300 },
    { name := "large", width := some 600, height := some 600 } ]

/-- One iteration of the `for` loop of `createThumbnails` (lines 171-190).
Line 173 binds the resize result to the local `thumbnailBuffer`; line 181
then evaluates `this.convertFormat(resizedBuffer, format)` — but
`resizedBuffer` is not declared anywhere in the function, so JavaScript
raises `ReferenceError: resizedBuffer is not defined` on the first
iteration, before any thumbnail entry is stored. -/
def thumbnailStep (s : SizeSpec) : Except String (String × OutFormat) :=
  let _thumbnailBuffer := resizeImage
    { width := s.width, height := s.height, fit := s.fit.getD "cover",
      withoutEnlargement := s.withoutEnlargement.getD true }
  .error "resizedBuffer is not defined"

/-- Function `ImageService.createThumbnails(imageBuffer, sizes = [],
format = 'webp')` of `imageService.js` lines 160-208.  On success it would
return the label-keyed thumbnail mapping; the catch at line 200 re-wraps
any thrown error as `Failed to create thumbnails: ...`.  Because every
iteration of the loop raises the `ReferenceError` of `thumbnailStep`, the
call fails whenever the processed size list is non-empty — and
`defaultSizes` never is. -/
def createThumbnails (buf : Buffer) (sizes : List SizeSpec) (format : String) :
    Except String (List (String × OutFormat)) :=
  let sizesToProcess := if sizes.length > 0 then sizes else defaultSizes
  match sizesToProcess.foldlM (fun acc s => do
      let t ← thumbnailStep s
      pure (acc ++ [t])) ([] : List (String × OutFormat)) with
  | .ok ts => .ok ts
  | .error m => .error ("Failed to create thumbnails: " ++ m)

/-- A JavaScript value as the crop guard sees it: a number, or a value
whose `typeof` is not `'number'` (`undefined`, a string, ...). -/
inductive JSVal where
  | num (n : Int)
  | nonNum
  deriving DecidableEq, Repr

/-- The predicate of the crop guard (line 249):
`typeof v !== 'number' || v < 0`. -/
def cropParamBad (v : JSVal) : Bool :=
  match v with
  | .nonNum => true
  | .num n => n < 0

/-- Numeric value of a crop parameter (only read after the guard has
established the value is a number). -/
def jsNum (v : JSVal) : Int :=
  match v with
  | .num n => n
  | .nonNum => 0

/-- The `transformations.crop` object `{ left, top, width, height }`. -/
structure CropSpec where
  left : JSVal
  top : JSVal
  width : JSVal
  height : JSVal
  deriving DecidableEq, Repr

/-- The `sharpen` sub-object with optional fields (destructured with
defaults `sigma = 1, flat = 1, jagged = 2` at line 230). -/
structure SharpenSpec where
  sigma : Option Int := none
  flat : Option Int := none
  jagged : Option Int := none
  deriving DecidableEq, Repr

/-- The `transformations` argument of `applyTransformations`.  Fields are
optional; each step's guard is JavaScript truthiness, so `rotate: 0` and
`blur: 0` are skipped like absent fields.  `modulate` and `tint` take
option objects the pipeline passes through uninspected, modelled by
presence flags. -/
structure Transformations where
  rotate : Option Int := none
  flip : Bool := false
  flop : Bool := false
  sharpen : Option SharpenSpec := none
  blur : Option Int := none
  modulate : Bool := false
  grayscale : Bool := false
  negate : Bool := false
  crop : Option CropSpec := none
  tint : Bool := false
  deriving DecidableEq, Repr

/-- Outcome of `ImageService.applyTransformations`. -/
inductive TransformResult where
  /-- Control reached `await sharpInstance.toBuffer()` (line 258): the
  abstract codec is invoked on the queued operation list. -/
  | ok (ops : List SharpOp)
  /-- Thrown `Invalid crop parameters` (line 250) before `toBuffer` — no
  codec call is made; the catch re-wraps it as
  `Failed to apply transformations: ...`. -/
  | invalidCrop
  deriving DecidableEq, Repr

/-- Function `ImageService.applyTransformations(imageBuffer,
transformations)` of `imageService.js` lines 211-275.  Steps are queued in
source order (rotate, flip, flop, sharpen, blur, modulate, grayscale,
negate, crop, tint), each guarded by truthiness of its field.  The crop
guard (line 249) rejects a parameter that is non-numeric or negative; a
numeric width or height of `0` passes the guard and is queued as an
`extract` call. -/
def applyTransformations (t : Transformations) : TransformResult :=
  let ops : List SharpOp :=
    (match t.rotate with
     | some a => if a ≠ 0 then [.rotate a] else []
     | none => [])
    ++ (if t.flip then [.flip] else [])
    ++ (if t.flop then [.flop] else [])
    ++ (match t.sharpen with
        | some s => [.sharpen (s.sigma.getD 1) (s.flat.getD 1) (s.jagged.getD 2)]
        | none => [])
    ++ (match t.blur with
        | some b => if b ≠ 0 then [.blur b] else []
        | none => [])
    ++ (if t.modulate then [.modulate] else [])
    ++ (if t.grayscale then [.grayscale] else [])
    ++ (if t.negate then [.negate] else [])
  let tintOps : List SharpOp := if t.tint then [.tint] else []
  match t.crop with
  | some c =>
    if cropParamBad c.left || cropParamBad c.top
        || cropParamBad c.width || cropParamBad c.height then
      .invalidCrop
    else
      .ok (ops ++ [.extract (jsNum c.left) (jsNum c.top) (jsNum c.width) (jsNum c.height)]
        ++ tintOps)
  | none => .ok (ops ++ tintOps)

/-- A transformation spec whose crop has a numeric width of 0 — it
violates the claimed precondition `width ≥ 1` but not the source's guard. -/
def zeroWidthCropSpec : Transformations :=
  { crop := some ⟨.num 0, .num 0, .num 0, .num 10⟩ }

/-- A crop object with a negative `left` (used by the C7 witness). -/
def negLeftCrop : CropSpec := ⟨.num (-1), .num 0, .num 10, .num 10⟩

/-- A transformation spec carrying `negLeftCrop`. -/
def negLeftCropSpec : Transformations := { crop := some negLeftCrop }

/-! ## Object store adapter

`S3Service.uploadMultipleFiles` of `src/unnamed/part_008` lines 213-291.
The network transport (`this.uploadFile`, i.e. one S3 put) is abstracted by
a `store` oracle giving each well-formed entry's outcome. -/

/-- One element of the `files` array.  `buffer := none` models an absent or
nullish buffer (a present Buffer object is always truthy, whatever its
length); `mimetype` is checked with JavaScript truthiness, so both an
absent and an empty-string MIME type fail. -/
structure FileEntry where
  originalName : String
  buffer : Option Buffer := none
  mimetype : Option String := none
  deriving DecidableEq, Repr

/-- The fields of a successful `uploadFile` result the batch claims read. -/
structure UploadOk where
  key : String
  size : Nat
  deriving DecidableEq, Repr

/-- One file's task inside `uploadMultipleFiles` (the closure passed to
`limit(...)`, lines 218-252): a falsy `file?.buffer` or `file?.mimetype`
throws before `this.uploadFile` is ever called; otherwise `uploadFile`
runs, its outcome given by the `store` oracle.  The second component
counts the store put calls the task issued (0 or 1). -/
def entryOutcome (store : FileEntry → Except String UploadOk) (f : FileEntry) :
    Except String UploadOk × Nat :=
  match f.buffer with
  | none => (.error "Missing or invalid file buffer", 0)
  | some _ =>
    if jsTruthyStr f.mimetype then
      (store f, 1)
    else
      (.error "Missing file mimetype", 0)

/-- Message re-wrapping of a failed task (line 248):
`Failed to upload "(name)": (message)`. -/
def wrapFailMsg (name msg : String) : String :=
  "Failed to upload \"" ++ name ++ "\": " ++ msg

/-- Return value of `uploadMultipleFiles`:
`{ successful, failed, totalProcessed }`. -/
structure BatchResult where
  successful : List UploadOk
  failed : List (String × String)
  totalProcessed : Nat
  deriving DecidableEq, Repr

/-- Function `S3Service.uploadMultipleFiles(files, folder)` of
`src/unnamed/part_008` lines 213-291.  `Promise.allSettled` keeps every
task's outcome in input order and never rejects, and the `forEach` then
pushes each fulfilled value to `successful` and each rejection to `failed`
as `{ file: files[index].originalName, error: reason.message }` — so one
entry's failure never prevents the others from being attempted and
recorded.  `totalProcessed` is `files.length`. -/
def uploadMultipleFiles (store : FileEntry → Except String UploadOk)
    (files : List FileEntry) : BatchResult :=
  { successful := files.filterMap fun f =>
      match (entryOutcome store f).1 with
      | .ok u => some u
      | .error _ => none
  , failed := files.filterMap fun f =>
      match (entryOutcome store f).1 with
      | .ok _ => none
      | .error m => some (f.originalName, wrapFailMsg f.originalName m)
  , totalProcessed := files.length }

/-- A store oracle that accepts every entry (used by witnesses). -/
def storeW : FileEntry → Except String UploadOk :=
  fun f => .ok { key := f.originalName, size := 1 }

/-- A malformed entry: no buffer (used by witnesses). -/
def badEntryW : FileEntry := { originalName := "a.png" }

/-- A two-entry batch with one malformed file (used by witnesses). -/
def filesW : List FileEntry :=
  [badEntryW, { originalName := "b.png", buffer := some [1], mimetype := some "image/png" }]

/-! ## Concurrency limiter -/

/-- Modelled from the spec: the concurrency limiter `pLimit(5)` used by
`uploadMultipleFiles` is the external `p-limit` package, whose code is not
part of this repository.  Following the spec's words — "Concurrency bounded
to a fixed limit (5 concurrent uploads) regardless of input size" and
"batches larger than this queue additional files rather than issuing
unbounded concurrent connections" — it is modelled as a state machine over
the number of queued (`pending`) and in-flight (`active`) upload tasks. -/
structure LimiterState where
  pending : Nat
  active : Nat
  deriving DecidableEq, Repr

/-- The fixed limit passed to `pLimit` at line 215. -/
def uploadConcurrencyLimit : Nat := 5

/-- Modelled from the spec: one scheduling event of the `p-limit` limiter.
A queued task may start only while fewer than the limit are in flight; a
task in flight may finish at any time. -/
inductive LimiterStep : LimiterState → LimiterState → Prop where
  | start (s : LimiterState) (hp : 0 < s.pending)
      (ha : s.active < uploadConcurrencyLimit) :
      LimiterStep s ⟨s.pending - 1, s.active + 1⟩
  | finish (s : LimiterState) (ha : 0 < s.active) :
      LimiterStep s ⟨s.pending, s.active - 1⟩

/-- The limiter state at the start of `uploadMultipleFiles`: every file's
task queued, none in flight. -/
def batchInit (files : List FileEntry) : LimiterState :=
  { pending := files.length, active := 0 }

/-- Modelled from the spec: the states an execution of the batch upload can
pass through — reflexive-transitive closure of `LimiterStep` from the
initial state. -/
inductive LimiterReachable (init : LimiterState) : LimiterState → Prop where
  | refl : LimiterReachable init init
  | step {s t : LimiterState} : LimiterReachable init s → LimiterStep s t →
      LimiterReachable init t

/-! ## Upload orchestrator

`ImageUploadController.uploadImage` of `src/unnamed/part_008`
lines 353-469. -/

/-- The fields of `req.file` the controller reads: the buffer (through its
sharp metadata `md` and its `length`), plus name and MIME type. -/
structure RawFile where
  md : SharpMetadata
  size : Nat
  originalname : String
  mimetype : String
  deriving DecidableEq, Repr

/-- The constraints object the controller passes to `validateImage`
(lines 365-372).  The `allowedFormats` property it also passes is never
read by `validateImage` (which uses its own `supportedFormats` list), so it
does not appear here. -/
def uploadImageConstraints : Constraints :=
  { minWidth := some 50, minHeight := some 50, maxWidth := some 5000,
    maxHeight := some 5000, maxSize := some (10 * 1024 * 1024) }

/-- Pipeline stages of the single-upload sequence, for recording which ones
an execution reached. -/
inductive StageTag where
  | validate
  | metadata
  | uploadOriginal
  | thumbnails
  | uploadThumbnails
  | persist
  deriving DecidableEq, Repr

/-- The HTTP response `uploadImage` produces. -/
inductive UploadImageResponse where
  /-- Status 400, `No file uploaded` / `FILE_REQUIRED` (line 356). -/
  | fileRequired
  /-- Status 400, `validation failed` / `VALIDATION_ERROR` (line 374). -/
  | validationFailed
  /-- Status 500, `Upload failed` — the catch-all at line 463 caught the
  error `validateImage` threw. -/
  | uploadFailed (reasons : List VReason)
  /-- Status 201, `Image uploaded successfully` (line 451). -/
  | created
  deriving DecidableEq, Repr

/-- Function `ImageUploadController.uploadImage(req, res)` of
`src/unnamed/part_008` lines 353-469.  `imageService.validateImage` either
throws — caught by the catch-all, a 500 response — or returns the boolean
`true`; the controller then reads `validation.isValid` (line 374), a
property access on the boolean, which is `undefined` and hence falsy, so
`!validation.isValid` is true and the controller returns the 400
`validation failed` response without reaching the metadata extraction at
line 386.  Lines 385-462 (metadata, original upload, thumbnails, thumbnail
uploads, database record, 201 response) are unreachable.  The second
component lists the stages that executed. -/
def uploadImage (file : Option RawFile) : UploadImageResponse × List StageTag :=
  match file with
  | none => (.fileRequired, [])
  | some f =>
    match validateImage f.md f.size uploadImageConstraints with
    | .error rs => (.uploadFailed rs, [.validate])
    | .ok () => (.validationFailed, [.validate])

/-- A well-formed file: a 100×100 png of 1000 bytes (passes every
constraint the controller supplies). -/
def validFileW : RawFile :=
  { md := { format := "png", width := 100, height := 100 }, size := 1000,
    originalname := "x.png", mimetype := "image/png" }

/-- Claim C4 counterexample: an image of width 10 against
`{minWidth: 50, maxSize: 5}` with a 100-byte buffer violates two
constraints simultaneously (minWidth and maxSize), yet `validateImage`
fails with a single reason — the width message — because the size check is
only reached after the dimension check passes.  So the error list's length
is 1, not the claimed N = 2. -/
theorem validateImage_two_violations_one_reason :
    specViolationCount ⟨"png", 10, 100⟩ 100 { minWidth := some 50, maxSize := some 5 } = 2
    ∧ vErrorList
        (validateImage ⟨"png", 10, 100⟩ 100 { minWidth := some 50, maxSize := some 5 })
      = [.widthAtLeast 50] := by
  refine ⟨?_, by decide⟩
  simp only [specViolationCount, supportedFormats]
  norm_num

/-- Claim C4 (amended): `validateImage` collects exactly the violated
width/height bound constraints — the length of the reason list it fails
with equals the number of violated {minWidth, maxWidth, minHeight,
maxHeight} constraints whenever that number is positive.  Aspect-ratio
constraints contribute nothing (the metadata object passed has no
`aspectRatio` field), and a format or size violation is reported only when
every dimension check passes, as a single separate reason. -/
theorem validateImage_dimension_reasons (md : SharpMetadata) (bufLen : Nat)
    (c : Constraints) :
    (validateImageDimensions (sharpDims md) c).errors.length = whViolationCount md c
    ∧ (0 < whViolationCount md c →
        validateImage md bufLen c
          = .error (validateImageDimensions (sharpDims md) c).errors) := by
  have hlen : (validateImageDimensions (sharpDims md) c).errors.length
      = whViolationCount md c := by
    unfold validateImageDimensions whViolationCount sharpDims
    cases c.maxWidth <;> cases c.maxHeight <;> simp <;> split_ifs <;> simp
  refine ⟨hlen, fun h => ?_⟩
  have hval : (validateImageDimensions (sharpDims md) c).isValid = false := by
    have hh : (validateImageDimensions (sharpDims md) c).isValid
        = (validateImageDimensions (sharpDims md) c).errors.isEmpty := rfl
    cases hel : (validateImageDimensions (sharpDims md) c).errors with
    | nil => exfalso; rw [hel] at hlen; simp at hlen; omega
    | cons a l => rw [hh, hel]; rfl
  unfold validateImage
  simp [hval]

/-- Witness for C4's amended theorem at a concrete input: width 10 and
height 10 against `{minWidth: 50, minHeight: 20}` violate exactly two
bound constraints and the error list has length exactly 2. -/
theorem validateImage_dimension_reasons_witness :
    (validateImageDimensions (sharpDims ⟨"png", 10, 10⟩)
        { minWidth := some 50, minHeight := some 20 }).errors.length = 2
    ∧ validateImage ⟨"png", 10, 10⟩ 100 { minWidth := some 50, minHeight := some 20 }
      = .error (validateImageDimensions (sharpDims ⟨"png", 10, 10⟩)
          { minWidth := some 50, minHeight := some 20 }).errors := by
  have h := validateImage_dimension_reasons ⟨"png", 10, 10⟩ 100
    { minWidth := some 50, minHeight := some 20 }
  exact ⟨by rw [h.1]; decide, h.2 (by decide)⟩

/-- Claim C10: with no `maxSize` constraint supplied, `validateImage`
still enforces the default limit `10 * 1024 * 1024 = 10485760` bytes: a
longer buffer always fails, and when the dimension and format checks pass
the failure is exactly the size-exceeded reason with the default bound. -/
theorem validateImage_default_size_limit (md : SharpMetadata) (bufLen : Nat)
    (c : Constraints) (hms : c.maxSize = none) (hlen : 10485760 < bufLen) :
    (∃ rs, validateImage md bufLen c = .error rs)
    ∧ ((validateImageDimensions (sharpDims md) c).isValid = true →
        supportedFormats.contains md.format = true →
        validateImage md bufLen c = .error [.exceedsMaxSize 10485760]) := by
  have hms' : effectiveMaxSize c = 10485760 := by unfold effectiveMaxSize; rw [hms]
  constructor
  · unfold validateImage
    by_cases h1 : (validateImageDimensions (sharpDims md) c).isValid = true
    · by_cases h2 : supportedFormats.contains md.format = true
      · refine ⟨[.exceedsMaxSize (effectiveMaxSize c)], ?_⟩
        have h2' : md.format ∈ supportedFormats := by simpa using h2
        have h3 : bufLen > effectiveMaxSize c := by rw [hms']; exact hlen
        simp [h1, h2', h3]
      · have h2' : md.format ∉ supportedFormats := by simpa using h2
        exact ⟨[.unsupportedImageFormat md.format], by simp [h1, h2']⟩
    · exact ⟨(validateImageDimensions (sharpDims md) c).errors, by simp [h1]⟩
  · intro hdim hfmt
    have hfmt' : md.format ∈ supportedFormats := by simpa using hfmt
    unfold validateImage
    simp [hdim, hfmt', hms', hlen]

/-- Witness for C10 at a concrete input: a 100×100 png of 10485761 bytes
with empty constraints fails with the default size-exceeded reason. -/
theorem validateImage_default_size_limit_witness :
    validateImage ⟨"png", 100, 100⟩ 10485761 {} = .error [.exceedsMaxSize 10485760] :=
  (validateImage_default_size_limit ⟨"png", 100, 100⟩ 10485761 {} rfl
    (by norm_num)).2 (by decide) (by decide)

/-- Claim C5 (code evaluation): `convertFormat` with target `tiff` throws a
TypeError instead of succeeding — the `tiff` entry of `formatOptions` is an
eagerly evaluated sharp instance, not a thunk, so `formatOptions['tiff']()`
is a call of a non-function.  The other four claimed targets do succeed
with the claimed quality defaults (jpeg 85, png 90, webp 85, avif 85). -/
theorem convertFormat_tiff_target_throws (buf : Buffer) (quality : Option Nat) :
    convertFormat buf "tiff" quality = .typeErrorNotAFunction
    ∧ convertFormat buf "jpeg" none = .ok .jpeg (some 85)
    ∧ convertFormat buf "png" none = .ok .png (some 90)
    ∧ convertFormat buf "webp" none = .ok .webp (some 85)
    ∧ convertFormat buf "avif" none = .ok .avif (some 85) :=
  ⟨rfl, rfl, rfl, rfl, rfl⟩

/-- Claim C6: `convertFormat` with target `gif` never encodes gif — the
gif thunk logs a warning and calls `sharpInstance.png()`, so the output is
png-encoded (with the encoder's own defaults, no explicit quality). -/
theorem convertFormat_gif_falls_back_to_png (buf : Buffer) (quality : Option Nat) :
    convertFormat buf "gif" quality = .ok .png none :=
  rfl

/-- Claim C2 (code evaluation): `createThumbnails` with the default sizes
never returns a thumbnail mapping — the first loop iteration raises
`ReferenceError: resizedBuffer is not defined` (line 181 reads
`resizedBuffer`, but the resize result was bound to `thumbnailBuffer`), so
the call always fails with the re-wrapped message. -/
theorem createThumbnails_default_always_fails (buf : Buffer) :
    createThumbnails buf [] "webp"
      = .error "Failed to create thumbnails: resizedBuffer is not defined" :=
  rfl

/-- Claim C7 counterexample: a crop of `{left: 0, top: 0, width: 0,
height: 10}` violates the claimed precondition (`width ≥ 1`), yet
`applyTransformations` does not raise the invalid-crop error — the guard
only rejects non-numeric or negative values, so the zero-width crop is
queued as an `extract` call and the pipeline proceeds to the codec. -/
theorem applyTransformations_zero_width_crop_reaches_codec :
    (0 : Int) < 1
    ∧ applyTransformations zeroWidthCropSpec = .ok [.extract 0 0 0 10]
    ∧ applyTransformations zeroWidthCropSpec ≠ .invalidCrop := by
  refine ⟨by norm_num, rfl, by decide⟩

/-- Claim C7 (amended): `applyTransformations` fails fast with the
`Invalid crop parameters` error — before any codec call — exactly when the
crop guard fires, i.e. when some of left, top, width, height is
non-numeric or negative; a numeric width or height of 0 passes the guard
and reaches the decode/encode pipeline. -/
theorem applyTransformations_invalid_crop_fail_fast (t : Transformations)
    (c : CropSpec) (hc : t.crop = some c)
    (hbad : cropParamBad c.left = true ∨ cropParamBad c.top = true
      ∨ cropParamBad c.width = true ∨ cropParamBad c.height = true) :
    applyTransformations t = .invalidCrop := by
  unfold applyTransformations
  rw [hc]
  rcases hbad with h | h | h | h <;> simp [h]

/-- Witness for C7's amended theorem: a crop with a negative `left` makes
`applyTransformations` fail with the invalid-crop error. -/
theorem applyTransformations_invalid_crop_fail_fast_witness :
    applyTransformations negLeftCropSpec = .invalidCrop :=
  applyTransformations_invalid_crop_fail_fast negLeftCropSpec negLeftCrop
    rfl (Or.inl (by decide))

/-- Claim C3: `uploadMultipleFiles` settles every entry —
`successful.length + failed.length = totalProcessed = files.length`, so one
entry's failure never prevents the rest from being attempted and recorded —
and an entry with a falsy buffer or MIME type issues no store put and is
recorded in `failed` under its original name. -/
theorem uploadMultipleFiles_all_settled (store : FileEntry → Except String UploadOk)
    (files : List FileEntry) :
    (uploadMultipleFiles store files).successful.length
        + (uploadMultipleFiles store files).failed.length
      = (uploadMultipleFiles store files).totalProcessed
    ∧ (uploadMultipleFiles store files).totalProcessed = files.length
    ∧ (∀ f ∈ files, (f.buffer = none ∨ jsTruthyStr f.mimetype = false) →
        (entryOutcome store f).2 = 0
        ∧ ∃ m, (f.originalName, m) ∈ (uploadMultipleFiles store files).failed) := by
  refine ⟨?_, rfl, ?_⟩
  · show (files.filterMap _).length + (files.filterMap _).length = files.length
    induction files with
    | nil => rfl
    | cons f fs ih =>
      cases h : (entryOutcome store f).1 <;>
        simp only [List.filterMap_cons, h, List.length_cons] <;> omega
  · intro f hf hmal
    have herr : ∃ m, (entryOutcome store f).1 = .error m ∧ (entryOutcome store f).2 = 0 := by
      unfold entryOutcome
      rcases hmal with hb | hm
      · rw [hb]; exact ⟨_, rfl, rfl⟩
      · cases hbuf : f.buffer with
        | none => exact ⟨_, rfl, rfl⟩
        | some b => rw [hm]; exact ⟨_, rfl, rfl⟩
    rcases herr with ⟨m, hm1, hm2⟩
    refine ⟨hm2, wrapFailMsg f.originalName m, ?_⟩
    show _ ∈ files.filterMap _
    exact List.mem_filterMap.mpr ⟨f, hf, by rw [hm1]⟩

/-- Witness for C3: a two-file batch whose first entry lacks a buffer
settles both entries, issues no put for the malformed one and records it
in `failed`. -/
theorem uploadMultipleFiles_all_settled_witness :
    (uploadMultipleFiles storeW filesW).successful.length
        + (uploadMultipleFiles storeW filesW).failed.length
      = (uploadMultipleFiles storeW filesW).totalProcessed
    ∧ (entryOutcome storeW badEntryW).2 = 0
    ∧ ∃ m, ("a.png", m) ∈ (uploadMultipleFiles storeW filesW).failed := by
  have h := uploadMultipleFiles_all_settled storeW filesW
  have hb : badEntryW ∈ filesW := by decide
  have hcase := h.2.2 badEntryW hb (Or.inl rfl)
  exact ⟨h.1, hcase.1, hcase.2⟩

/-- Claim C9: in the limiter model of the batch upload, every state
reachable from the initial state (all tasks queued, none in flight) has at
most 5 uploads in flight — tasks beyond the cap stay queued. -/
theorem uploadMultipleFiles_concurrency_bound (files : List FileEntry)
    (s : LimiterState) (h : LimiterReachable (batchInit files) s) :
    s.active ≤ 5 := by
  induction h with
  | refl => exact Nat.zero_le 5
  | step _ hstep ih =>
    cases hstep with
    | start hp ha =>
      simp only [uploadConcurrencyLimit] at ha
      simp only [LimiterState.active]
      omega
    | finish ha =>
      simp only [LimiterState.active] at ih ⊢
      omega

/-- Witness for C9: after one start event of a 12-file batch, one upload is
in flight — within the bound. -/
theorem uploadMultipleFiles_concurrency_bound_witness :
    (⟨11, 1⟩ : LimiterState).active ≤ 5 :=
  uploadMultipleFiles_concurrency_bound (List.replicate 12 badEntryW) ⟨11, 1⟩
    (LimiterReachable.step LimiterReachable.refl
      (LimiterStep.start (batchInit (List.replicate 12 badEntryW))
        (by decide) (by decide)))

/-- Claim C1 (code evaluation): for every file whose image passes
validation, `uploadImage` returns the 400 `validation failed` response
after only the validate stage — `validateImage` returns the boolean `true`,
the controller reads `.isValid` on it (`undefined`, falsy) and bails out,
so metadata extraction, uploads, thumbnails and the catalog record never
execute and the composed success response is unreachable. -/
theorem uploadImage_valid_file_rejected (f : RawFile)
    (h : validateImage f.md f.size uploadImageConstraints = .ok ()) :
    uploadImage (some f) = (.validationFailed, [.validate]) := by
  simp only [uploadImage, h]

/-- Witness for C1's evaluation theorem: a 100×100 png of 1000 bytes
passes validation yet is answered with the validation-failed response. -/
theorem uploadImage_valid_file_rejected_witness :
    uploadImage (some validFileW) = (.validationFailed, [.validate]) :=
  uploadImage_valid_file_rejected validFileW (by rfl)

end ImageUploader
